import Mathlib

/-!
Shallow embedding of the user-account subsystem of CineConnect
(src/server/controllers/userController.js) and proofs about its
pending-change verification workflow.

The persistence layer is modelled as a list of user records with
atomic per-record read-modify-write (`findOne` + `save`); each
controller handler becomes a pure function from the current state
(and an environment carrying the token generator, clock, hash and
mail-send outcomes) to the new state paired with the HTTP response.
Timestamps are naturals (milliseconds); JS truthiness of optional
request fields is modelled with `Option`.
-/

namespace CineConnect

/-- The `pendingChanges` subdocument of the User model: staged profile
edits awaiting email confirmation.  `changeType` is one of
"username" | "email" | "password" | "multiple" or null. -/
structure PendingChanges where
  username : Option String
  email : Option String
  password : Option String
  changeType : Option String
deriving DecidableEq, Repr

/-- The all-null pending batch the controller writes when clearing. -/
def emptyPending : PendingChanges :=
  { username := none, email := none, password := none, changeType := none }

/-- A User document, with the fields the controller reads and writes.
`password` stands for the stored (hashed) password value. -/
structure User where
  id : Nat
  username : String
  email : String
  password : String
  isEmailVerified : Bool
  pendingChanges : PendingChanges
  emailVerificationToken : Option String
  emailVerificationExpires : Option Nat
  passwordResetToken : Option String
  passwordResetExpires : Option Nat
deriving DecidableEq, Repr

/-- An HTTP response: status code and the `message` field of the JSON
body (the only body field the verified claims are about). -/
structure Resp where
  status : Nat
  message : String
deriving DecidableEq, Repr

/-- `user.save()`: replace the record with the same `_id` in the store. -/
def updateUser (db : List User) (uid : Nat) (u' : User) : List User :=
  db.map (fun v => if v.id = uid then u' else v)

/-- The Mongo query `{ emailVerificationToken: token,
emailVerificationExpires: { $gt: Date.now() } }` on one record. -/
def tokenMatches (token : String) (now : Nat) (u : User) : Bool :=
  u.emailVerificationToken = some token &&
    match u.emailVerificationExpires with
    | some e => now < e
    | none => false

/-- `User.findOne` for the verification-token query. -/
def findOneToken (db : List User) (token : String) (now : Nat) : Option User :=
  db.find? (tokenMatches token now)

/-- The body of `verifyEmail` once a user has been matched: initial
verification, application of a pending batch, clearing of the token
fields, and the success message (computed, as in the source, after
`pendingChanges` has been cleared).  Returns the saved record and the
message. -/
def applyVerifyEmail (u : User) : User × String :=
  let u1 :=
    if !u.isEmailVerified && !u.pendingChanges.changeType.isSome then
      { u with isEmailVerified := true }
    else u
  let u2 :=
    if u1.pendingChanges.changeType.isSome then
      let pc := u1.pendingChanges
      let a := match pc.username with
        | some n => { u1 with username := n }
        | none => u1
      let b := match pc.email with
        | some e => { a with email := e }
        | none => a
      let c := match pc.password with
        | some p => { b with password := p }
        | none => b
      let d := { c with pendingChanges := emptyPending }
      if !d.isEmailVerified then { d with isEmailVerified := true } else d
    else u1
  let u3 := { u2 with emailVerificationToken := none,
                      emailVerificationExpires := none }
  let message :=
    if u3.pendingChanges.changeType.isSome then
      "Profile changes applied successfully"
    else
      "Email verified successfully"
  (u3, message)

/-- GET /api/users/verify-email/:token. -/
def verifyEmail (db : List User) (token : String) (now : Nat) :
    List User × Resp :=
  match findOneToken db token now with
  | none => (db, ⟨400, "Invalid or expired verification token"⟩)
  | some u =>
    let r := applyVerifyEmail u
    (updateUser db u.id r.1, ⟨200, r.2⟩)

/-- PUT /api/users/profile request body.  `some s` models a truthy
(present, non-empty) field; `none` models absent or falsy. -/
structure UpdateReq where
  username : Option String
  email : Option String
  newPassword : Option String
  currentPassword : Option String
deriving DecidableEq, Repr

/-- Environment of one `updateUserProfile` call: the outcomes of the
collaborator calls the handler makes (uniqueness lookups, bcrypt
compare and hash, token generator, clock, mail transport). -/
structure UpdateEnv where
  emailTaken : String → Bool
  usernameTaken : String → Bool
  passwordMatches : String → String → Bool
  hash : String → String
  freshToken : String
  now : Nat
  sendOk : Bool

/-- The email-change branch of `updateUserProfile`: stage
`req.body.email` when present and different from the live email,
rejecting a taken email. -/
def stageEmailStep (u : User) (req : UpdateReq) (env : UpdateEnv) :
    Except Resp (Option String) :=
  match req.email with
  | some e =>
    if e ≠ u.email then
      if env.emailTaken e then .error ⟨400, "Email is already in use"⟩
      else .ok (some e)
    else .ok none
  | none => .ok none

/-- The username-change branch of `updateUserProfile`. -/
def stageUsernameStep (u : User) (req : UpdateReq) (env : UpdateEnv) :
    Except Resp (Option String) :=
  match req.username with
  | some n =>
    if n ≠ u.username then
      if env.usernameTaken n then .error ⟨400, "Username is already taken"⟩
      else .ok (some n)
    else .ok none
  | none => .ok none

/-- The password-change branch of `updateUserProfile`: requires the
current password, verifies it, and stages the bcrypt hash of the new
password. -/
def stagePasswordStep (u : User) (req : UpdateReq) (env : UpdateEnv) :
    Except Resp (Option String) :=
  match req.newPassword with
  | some p =>
    match req.currentPassword with
    | none => .error ⟨400, "Current password is required"⟩
    | some cp =>
      if env.passwordMatches cp u.password then .ok (some (env.hash p))
      else .error ⟨401, "Current password is incorrect"⟩
  | none => .ok none

/-- The staging phase of `updateUserProfile` (source lines 120-179):
runs the three change branches in source order, accumulating
`changeType` exactly as the sequence of
`changeType = changeType ? 'multiple' : '<field>'` assignments does,
and rejects a no-op request. -/
def stagingResult (u : User) (req : UpdateReq) (env : UpdateEnv) :
    Except Resp PendingChanges :=
  match stageEmailStep u req env with
  | .error r => .error r
  | .ok pendEmail =>
    let ct1 : Option String := if pendEmail.isSome then some "email" else none
    match stageUsernameStep u req env with
    | .error r => .error r
    | .ok pendUsername =>
      let ct2 : Option String :=
        if pendUsername.isSome then
          some (if ct1.isSome then "multiple" else "username")
        else ct1
      match stagePasswordStep u req env with
      | .error r => .error r
      | .ok pendPassword =>
        let ct3 : Option String :=
          if pendPassword.isSome then
            some (if ct2.isSome then "multiple" else "password")
          else ct2
        if pendEmail.isNone && pendUsername.isNone && pendPassword.isNone then
          .error ⟨400, "No changes were requested"⟩
        else
          .ok { username := pendUsername, email := pendEmail,
                password := pendPassword, changeType := ct3 }

/-- The 400 returned when a pending batch already exists. -/
def pendingExistsResp : Resp :=
  ⟨400, "You have pending changes that require verification. Please check your email or request a new verification link."⟩

/-- PUT /api/users/profile: reject when a batch is pending, stage the
requested changes with a fresh 24h verification token, persist, then
attempt the notification; on send failure roll the staged batch and
token back and report a 500.  Returns the user record as persisted
when the handler returns, with the response. -/
def updateUserProfile (u : User) (req : UpdateReq) (env : UpdateEnv) :
    User × Resp :=
  if u.pendingChanges.changeType.isSome then
    (u, pendingExistsResp)
  else
    match stagingResult u req env with
    | .error r => (u, r)
    | .ok pc =>
      let u1 := { u with
        pendingChanges := pc,
        emailVerificationToken := some env.freshToken,
        emailVerificationExpires := some (env.now + 24 * 60 * 60 * 1000) }
      if env.sendOk then
        (u1, ⟨200, "A verification email has been sent."⟩)
      else
        let u2 := { u1 with
          pendingChanges := emptyPending,
          emailVerificationToken := none,
          emailVerificationExpires := none }
        (u2, ⟨500, "Could not send verification email. Please try again later."⟩)

/-- Environment of a `forgotPassword` or `resendVerificationEmail`
call: fresh token, clock and mail-transport outcome. -/
structure TokenEnv where
  freshToken : String
  now : Nat
  sendOk : Bool

/-- The shared anti-enumeration response of `forgotPassword`. -/
def genericResetResp : Resp :=
  ⟨200, "If an account with that email exists, a password reset link has been sent."⟩

/-- POST /api/users/forgot-password: always answer with the generic
message when the email is unknown; otherwise issue a 1h reset token,
persist, send, and on send failure remove the token again. -/
def forgotPassword (db : List User) (email : Option String)
    (env : TokenEnv) : List User × Resp :=
  match email with
  | none => (db, ⟨400, "Email is required"⟩)
  | some e =>
    match db.find? (fun u => u.email = e) with
    | none => (db, genericResetResp)
    | some u =>
      let u1 := { u with
        passwordResetToken := some env.freshToken,
        passwordResetExpires := some (env.now + 60 * 60 * 1000) }
      if env.sendOk then
        (updateUser db u.id u1, genericResetResp)
      else
        let u2 := { u1 with passwordResetToken := none,
                            passwordResetExpires := none }
        (updateUser db u.id u2,
         ⟨500, "Error sending password reset email. Please try again later."⟩)

/-- The Mongo query `{ passwordResetToken: token,
passwordResetExpires: { $gt: Date.now() } }` on one record. -/
def resetTokenMatches (token : String) (now : Nat) (u : User) : Bool :=
  u.passwordResetToken = some token &&
    match u.passwordResetExpires with
    | some e => now < e
    | none => false

/-- The successful-reset mutation: set the password and clear the
reset-token pair; no other field is written. -/
def applyReset (u : User) (p : String) : User :=
  { u with password := p,
           passwordResetToken := none,
           passwordResetExpires := none }

/-- POST /api/users/reset-password/:token: validate presence and
length of the new password, look up by non-expired reset token, set
the password and clear the reset token in one save. -/
def resetPassword (db : List User) (token : String)
    (password : Option String) (now : Nat) : List User × Resp :=
  match password with
  | none => (db, ⟨400, "New password is required"⟩)
  | some p =>
    if p.length < 6 then
      (db, ⟨400, "Password must be at least 6 characters"⟩)
    else
      match db.find? (resetTokenMatches token now) with
      | none => (db, ⟨400, "Invalid or expired password reset token"⟩)
      | some u =>
        (updateUser db u.id (applyReset u p),
         ⟨200, "Password has been reset successfully. You can now log in with your new password."⟩)

/-- POST /api/users/resend-verification: only for unverified accounts;
issues a fresh 24h verification token (overwriting any prior one) and
persists it before attempting the send (no rollback on send failure
in this handler). -/
def resendVerificationEmail (u : User) (env : TokenEnv) : User × Resp :=
  if u.isEmailVerified then
    (u, ⟨400, "Your email is already verified"⟩)
  else
    let u1 := { u with
      emailVerificationToken := some env.freshToken,
      emailVerificationExpires := some (env.now + 24 * 60 * 60 * 1000) }
    if env.sendOk then
      (u1, ⟨200, "Verification email has been sent"⟩)
    else
      (u1, ⟨500, "Could not send verification email. Please try again later."⟩)

/-! ### Sample records used by the concrete witnesses -/

/-- A verified user with no pending batch and no active token. -/
def cleanUser : User :=
  { id := 2, username := "ann", email := "a@x.com", password := "ph",
    isEmailVerified := true, pendingChanges := emptyPending,
    emailVerificationToken := none, emailVerificationExpires := none,
    passwordResetToken := none, passwordResetExpires := none }

/-- A user with a staged multi-field batch and a token expiring at 100. -/
def pendingUser : User :=
  { id := 1, username := "old", email := "old@x.com", password := "h0",
    isEmailVerified := false,
    pendingChanges := { username := some "new", email := some "n@x.com",
                        password := some "h1", changeType := some "multiple" },
    emailVerificationToken := some "tok", emailVerificationExpires := some 100,
    passwordResetToken := none, passwordResetExpires := none }

/-- A benign environment: nothing taken, bcrypt compare succeeds on "pw"
against "ph", hashing prefixes "H:", mail send succeeds. -/
def okEnv : UpdateEnv :=
  { emailTaken := fun _ => false, usernameTaken := fun _ => false,
    passwordMatches := fun c h => c = "pw" && h = "ph",
    hash := fun p => String.append "H:" p,
    freshToken := "t1", now := 1000, sendOk := true }

/-- A request staging a new username only. -/
def usernameReq : UpdateReq :=
  { username := some "bob", email := none,
    newPassword := none, currentPassword := none }

/-! ### C1: verifyEmail commits a pending batch atomically -/

/-- C1: when a user is matched by a valid, non-expired verification
token and holds a pending change batch, `verifyEmail` copies every
non-null staged field onto the live record, sets the verified flag,
and clears both the batch and the token fields, all in the single
record value passed to the one `save`; the response is a success. -/
theorem verifyEmail_commits_pending_batch
    (db : List User) (token : String) (now : Nat) (u : User)
    (hfind : findOneToken db token now = some u)
    (hp : u.pendingChanges.changeType.isSome = true) :
    (verifyEmail db token now).1 = updateUser db u.id (applyVerifyEmail u).1 ∧
    (verifyEmail db token now).2.status = 200 ∧
    (applyVerifyEmail u).1.username =
      u.pendingChanges.username.getD u.username ∧
    (applyVerifyEmail u).1.email = u.pendingChanges.email.getD u.email ∧
    (applyVerifyEmail u).1.password =
      u.pendingChanges.password.getD u.password ∧
    (applyVerifyEmail u).1.isEmailVerified = true ∧
    (applyVerifyEmail u).1.pendingChanges = emptyPending ∧
    (applyVerifyEmail u).1.emailVerificationToken = none ∧
    (applyVerifyEmail u).1.emailVerificationExpires = none := by
  rcases hct : u.pendingChanges.changeType with _ | ct
  · rw [hct] at hp; simp at hp
  · rcases hu : u.pendingChanges.username with _ | n <;>
    rcases he : u.pendingChanges.email with _ | e <;>
    rcases hpw : u.pendingChanges.password with _ | p <;>
    rcases hv : u.isEmailVerified with _ | _ <;>
    simp [verifyEmail, hfind, applyVerifyEmail, hct, hu, he, hpw, hv,
      emptyPending]

/-- Concrete check of C1 on `pendingUser`. -/
theorem verifyEmail_commits_pending_batch_witness :
    findOneToken [pendingUser] "tok" 50 = some pendingUser ∧
    pendingUser.pendingChanges.changeType.isSome = true ∧
    (verifyEmail [pendingUser] "tok" 50).1 =
      updateUser [pendingUser] pendingUser.id (applyVerifyEmail pendingUser).1 ∧
    (applyVerifyEmail pendingUser).1.username = "new" := by
  refine ⟨by decide, by decide, ?_, ?_⟩
  · exact (verifyEmail_commits_pending_batch [pendingUser] "tok" 50 pendingUser
      (by decide) (by decide)).1
  · have h := (verifyEmail_commits_pending_batch [pendingUser] "tok" 50
      pendingUser (by decide) (by decide)).2.2.1
    simpa using h

/-! ### C2: a pending batch blocks further staging -/

/-- C2: when a user already has a pending change batch
(`pendingChanges.changeType` set), `updateUserProfile` returns the
pending-changes-exist error without modifying the record. -/
theorem updateUserProfile_rejects_while_pending
    (u : User) (req : UpdateReq) (env : UpdateEnv)
    (hp : u.pendingChanges.changeType.isSome = true) :
    updateUserProfile u req env = (u, pendingExistsResp) := by
  simp [updateUserProfile, hp]

/-- Concrete check of C2 on `pendingUser`. -/
theorem updateUserProfile_rejects_while_pending_witness :
    pendingUser.pendingChanges.changeType.isSome = true ∧
    updateUserProfile pendingUser usernameReq okEnv =
      (pendingUser, pendingExistsResp) :=
  ⟨by decide,
   updateUserProfile_rejects_while_pending pendingUser usernameReq okEnv
     (by decide)⟩

/-! ### C5: unknown and expired tokens are indistinguishable -/

/-- C5: when every user either does not hold the presented token or
holds it with an expiry that has passed, `verifyEmail` returns the one
generic invalid-or-expired response -- the same literal in both cases
-- and leaves the store untouched. -/
theorem verifyEmail_unknown_or_expired
    (db : List User) (token : String) (now : Nat)
    (h : ∀ u ∈ db, u.emailVerificationToken ≠ some token ∨
      ∀ e, u.emailVerificationExpires = some e → e ≤ now) :
    verifyEmail db token now =
      (db, ⟨400, "Invalid or expired verification token"⟩) := by
  have hnone : findOneToken db token now = none := by
    rw [findOneToken, List.find?_eq_none]
    intro u hu
    rcases h u hu with h1 | h2
    · simp [tokenMatches, h1]
    · rcases hx : u.emailVerificationExpires with _ | e
      · simp [tokenMatches, hx]
      · have := h2 e hx
        simp [tokenMatches, hx]
        omega
  simp [verifyEmail, hnone]

/-- Concrete check of C5: a store holding one user with a different
token and one whose token has expired. -/
theorem verifyEmail_unknown_or_expired_witness :
    (∀ u ∈ [cleanUser, pendingUser],
      u.emailVerificationToken ≠ some "tok" ∨
      ∀ e, u.emailVerificationExpires = some e → e ≤ 100) ∧
    verifyEmail [cleanUser, pendingUser] "tok" 100 =
      ([cleanUser, pendingUser],
       ⟨400, "Invalid or expired verification token"⟩) :=
  ⟨by decide,
   verifyEmail_unknown_or_expired [cleanUser, pendingUser] "tok" 100
     (by decide)⟩

/-! ### C6: the success message never reports applied changes -/

/-- C6 (code bug): the handler clears `pendingChanges` before choosing
the success message, so the message check sees the cleared batch and
the result is always the plain verified message -- the profile-changes
branch of the message selection is unreachable. -/
theorem verifyEmail_message_never_reports_changes (u : User) :
    (applyVerifyEmail u).2 = "Email verified successfully" := by
  rcases hct : u.pendingChanges.changeType with _ | ct <;>
  rcases hu : u.pendingChanges.username with _ | n <;>
  rcases he : u.pendingChanges.email with _ | e <;>
  rcases hpw : u.pendingChanges.password with _ | p <;>
  rcases hv : u.isEmailVerified with _ | _ <;>
  simp [applyVerifyEmail, hct, hu, he, hpw, hv, emptyPending]

/-! ### C10: re-verification of a clean verified user is harmless -/

/-- C10: for a user already verified with no pending batch,
`verifyEmail` with the user's valid non-expired token succeeds and the
saved record differs from the old one only in the cleared
`emailVerificationToken` and `emailVerificationExpires` fields. -/
theorem verifyEmail_reverification_harmless
    (db : List User) (token : String) (now : Nat) (u : User)
    (hfind : findOneToken db token now = some u)
    (hv : u.isEmailVerified = true)
    (hp : u.pendingChanges.changeType = none) :
    verifyEmail db token now =
      (updateUser db u.id
        { u with emailVerificationToken := none,
                 emailVerificationExpires := none },
       ⟨200, "Email verified successfully"⟩) := by
  simp [verifyEmail, hfind, applyVerifyEmail, hv, hp]

/-- Concrete check of C10 on a verified, batch-free user holding a
live token. -/
theorem verifyEmail_reverification_harmless_witness :
    findOneToken
      [{ cleanUser with emailVerificationToken := some "t9",
                        emailVerificationExpires := some 500 }] "t9" 10 =
      some { cleanUser with emailVerificationToken := some "t9",
                            emailVerificationExpires := some 500 } ∧
    verifyEmail
      [{ cleanUser with emailVerificationToken := some "t9",
                        emailVerificationExpires := some 500 }] "t9" 10 =
      ([cleanUser], ⟨200, "Email verified successfully"⟩) := by
  constructor
  · decide
  · have h := verifyEmail_reverification_harmless
      [{ cleanUser with emailVerificationToken := some "t9",
                        emailVerificationExpires := some 500 }] "t9" 10
      { cleanUser with emailVerificationToken := some "t9",
                       emailVerificationExpires := some 500 }
      (by decide) (by decide) (by decide)
    rw [h]
    decide

/-! ### Inversion lemmas for the staging phase -/

/-- The only error the email branch can raise. -/
theorem stageEmailStep_error (u : User) (req : UpdateReq) (env : UpdateEnv)
    (r : Resp) (h : stageEmailStep u req env = .error r) :
    r = ⟨400, "Email is already in use"⟩ := by
  rcases he : req.email with _ | e <;> simp [stageEmailStep, he] at h
  split at h <;> try simp_all
  split at h <;> simp_all

/-- The only error the username branch can raise. -/
theorem stageUsernameStep_error (u : User) (req : UpdateReq) (env : UpdateEnv)
    (r : Resp) (h : stageUsernameStep u req env = .error r) :
    r = ⟨400, "Username is already taken"⟩ := by
  rcases hn : req.username with _ | n <;> simp [stageUsernameStep, hn] at h
  split at h <;> try simp_all
  split at h <;> simp_all

/-- The only errors the password branch can raise. -/
theorem stagePasswordStep_error (u : User) (req : UpdateReq) (env : UpdateEnv)
    (r : Resp) (h : stagePasswordStep u req env = .error r) :
    r = ⟨400, "Current password is required"⟩ ∨
    r = ⟨401, "Current password is incorrect"⟩ := by
  rcases hp : req.newPassword with _ | p <;>
    simp [stagePasswordStep, hp] at h
  rcases hc : req.currentPassword with _ | cp <;> simp [hc] at h
  · exact Or.inl h.symm
  · split at h <;> simp_all

/-- No error of the staging phase equals the pending-changes-exist
response. -/
theorem stagingResult_error_ne_pending (u : User) (req : UpdateReq)
    (env : UpdateEnv) (r : Resp)
    (h : stagingResult u req env = .error r) : r ≠ pendingExistsResp := by
  unfold stagingResult at h
  cases h1 : stageEmailStep u req env with
  | error r1 =>
    rw [h1] at h
    simp at h
    subst h
    rw [stageEmailStep_error u req env r1 h1]
    simp [pendingExistsResp]
  | ok oe =>
    rw [h1] at h
    simp only at h
    cases h2 : stageUsernameStep u req env with
    | error r2 =>
      rw [h2] at h
      simp at h
      subst h
      rw [stageUsernameStep_error u req env r2 h2]
      simp [pendingExistsResp]
    | ok ou =>
      rw [h2] at h
      simp only at h
      cases h3 : stagePasswordStep u req env with
      | error r3 =>
        rw [h3] at h
        simp at h
        subst h
        rcases stagePasswordStep_error u req env r3 h3 with h4 | h4 <;>
          rw [h4] <;> simp [pendingExistsResp]
      | ok op =>
        rw [h3] at h
        simp only at h
        split at h <;> simp at h
        subst h
        simp [pendingExistsResp]

/-! ### C3: rollback on notification failure -/

/-- C3: when staging succeeds but the notification send fails,
`updateUserProfile` reports a 500 and the persisted record keeps its
live username, email and password, with the pending batch and the
token fields cleared; a retry of the same request against the
rolled-back record is not rejected by the pending-changes-exist
check. -/
theorem updateUserProfile_rollback_on_send_failure
    (u : User) (req : UpdateReq) (env env2 : UpdateEnv)
    (pc : PendingChanges)
    (h0 : u.pendingChanges.changeType = none)
    (hs : stagingResult u req env = .ok pc)
    (hsend : env.sendOk = false) :
    (updateUserProfile u req env).2.status = 500 ∧
    (updateUserProfile u req env).1.username = u.username ∧
    (updateUserProfile u req env).1.email = u.email ∧
    (updateUserProfile u req env).1.password = u.password ∧
    (updateUserProfile u req env).1.pendingChanges = emptyPending ∧
    (updateUserProfile u req env).1.emailVerificationToken = none ∧
    (updateUserProfile u req env).1.emailVerificationExpires = none ∧
    (updateUserProfile u req env).1.pendingChanges.changeType = none ∧
    (updateUserProfile (updateUserProfile u req env).1 req env2).2 ≠
      pendingExistsResp := by
  have hmain : updateUserProfile u req env =
      ({ u with pendingChanges := emptyPending,
                emailVerificationToken := none,
                emailVerificationExpires := none },
       ⟨500, "Could not send verification email. Please try again later."⟩) := by
    simp [updateUserProfile, h0, hs, hsend]
  rw [hmain]
  refine ⟨rfl, rfl, rfl, rfl, rfl, rfl, rfl, rfl, ?_⟩
  set u2 : User :=
    { u with pendingChanges := emptyPending,
             emailVerificationToken := none,
             emailVerificationExpires := none } with hu2
  have hguard : u2.pendingChanges.changeType.isSome = false := by
    rw [hu2]; rfl
  cases h4 : stagingResult u2 req env2 with
  | error r =>
    have hne := stagingResult_error_ne_pending u2 req env2 r h4
    simp [updateUserProfile, hguard, h4, hne]
  | ok pc2 =>
    cases h5 : env2.sendOk <;>
      simp [updateUserProfile, hguard, h4, h5, pendingExistsResp]

/-! ### C4: changeType classifies the staged batch -/

/-- The batch produced by a successful staging phase satisfies the
changeType classification invariant. -/
theorem stagingResult_ok_changeType (u : User) (req : UpdateReq)
    (env : UpdateEnv) (pc : PendingChanges)
    (hs : stagingResult u req env = .ok pc) :
    (pc.changeType = some "multiple" ↔
      ((pc.username.isSome ∧ pc.email.isSome) ∨
       (pc.username.isSome ∧ pc.password.isSome) ∨
       (pc.email.isSome ∧ pc.password.isSome))) ∧
    ((pc.username.isSome ∧ pc.email = none ∧ pc.password = none) →
      pc.changeType = some "username") ∧
    ((pc.email.isSome ∧ pc.username = none ∧ pc.password = none) →
      pc.changeType = some "email") ∧
    ((pc.password.isSome ∧ pc.username = none ∧ pc.email = none) →
      pc.changeType = some "password") ∧
    (pc.changeType = none ↔
      (pc.username = none ∧ pc.email = none ∧ pc.password = none)) := by
  unfold stagingResult at hs
  cases h1 : stageEmailStep u req env with
  | error r => rw [h1] at hs; simp at hs
  | ok oe =>
    rw [h1] at hs
    simp only at hs
    cases h2 : stageUsernameStep u req env with
    | error r => rw [h2] at hs; simp at hs
    | ok ou =>
      rw [h2] at hs
      simp only at hs
      cases h3 : stagePasswordStep u req env with
      | error r => rw [h3] at hs; simp at hs
      | ok op =>
        rw [h3] at hs
        simp only at hs
        rcases oe with _ | e <;> rcases ou with _ | n <;>
          rcases op with _ | p <;> simp at hs <;> rw [← hs] <;> simp

/-- C4: after a successful staging by `updateUserProfile`, the stored
batch is the staged one and its `changeType` is `multiple` iff at
least two fields are staged, names the single field when exactly one
is staged, and is null iff all three staged fields are null. -/
theorem updateUserProfile_changeType_classification
    (u : User) (req : UpdateReq) (env : UpdateEnv) (pc : PendingChanges)
    (h0 : u.pendingChanges.changeType = none)
    (hs : stagingResult u req env = .ok pc)
    (hsend : env.sendOk = true) :
    (updateUserProfile u req env).1.pendingChanges = pc ∧
    (updateUserProfile u req env).2.status = 200 ∧
    (pc.changeType = some "multiple" ↔
      ((pc.username.isSome ∧ pc.email.isSome) ∨
       (pc.username.isSome ∧ pc.password.isSome) ∨
       (pc.email.isSome ∧ pc.password.isSome))) ∧
    ((pc.username.isSome ∧ pc.email = none ∧ pc.password = none) →
      pc.changeType = some "username") ∧
    ((pc.email.isSome ∧ pc.username = none ∧ pc.password = none) →
      pc.changeType = some "email") ∧
    ((pc.password.isSome ∧ pc.username = none ∧ pc.email = none) →
      pc.changeType = some "password") ∧
    (pc.changeType = none ↔
      (pc.username = none ∧ pc.email = none ∧ pc.password = none)) := by
  have hmain : (updateUserProfile u req env).1.pendingChanges = pc ∧
      (updateUserProfile u req env).2.status = 200 := by
    constructor <;> simp [updateUserProfile, h0, hs, hsend]
  exact ⟨hmain.1, hmain.2, stagingResult_ok_changeType u req env pc hs⟩

/-! ### C9: password reset is direct and frame-respecting -/

/-- C9: a reset with a valid token and a password of length at least 6
persists, in one save, exactly the record with the new password set
and the reset-token pair cleared; every other field -- in particular
`pendingChanges`, `emailVerificationToken` and
`emailVerificationExpires` -- is carried over unchanged, and neither
the token lookup nor the mutation depends on those fields. -/
theorem resetPassword_direct_and_frame
    (db : List User) (token p : String) (now : Nat) (u : User)
    (pc : PendingChanges) (t : Option String) (x : Option Nat)
    (hlen : 6 ≤ p.length)
    (hfind : db.find? (resetTokenMatches token now) = some u) :
    (resetPassword db token (some p) now).1 =
      updateUser db u.id (applyReset u p) ∧
    (resetPassword db token (some p) now).2.status = 200 ∧
    (applyReset u p).password = p ∧
    (applyReset u p).passwordResetToken = none ∧
    (applyReset u p).passwordResetExpires = none ∧
    (applyReset u p).pendingChanges = u.pendingChanges ∧
    (applyReset u p).emailVerificationToken = u.emailVerificationToken ∧
    (applyReset u p).emailVerificationExpires = u.emailVerificationExpires ∧
    (applyReset u p).username = u.username ∧
    (applyReset u p).email = u.email ∧
    (applyReset u p).isEmailVerified = u.isEmailVerified ∧
    applyReset
      { u with pendingChanges := pc, emailVerificationToken := t,
               emailVerificationExpires := x } p =
      { applyReset u p with pendingChanges := pc,
                            emailVerificationToken := t,
                            emailVerificationExpires := x } ∧
    resetTokenMatches token now
      { u with pendingChanges := pc, emailVerificationToken := t,
               emailVerificationExpires := x } =
      resetTokenMatches token now u := by
  have hl : ¬ p.length < 6 := by omega
  simp [resetPassword, hl, hfind, applyReset, resetTokenMatches]

/-- `okEnv` with the mail transport failing. -/
def failEnv : UpdateEnv := { okEnv with sendOk := false }

/-- The batch staged by `usernameReq` against `cleanUser`. -/
def stagedUsernameBatch : PendingChanges :=
  { username := some "bob", email := none, password := none,
    changeType := some "username" }

/-- Concrete check of C3: a send failure while staging a username
change for `cleanUser`. -/
theorem updateUserProfile_rollback_on_send_failure_witness :
    cleanUser.pendingChanges.changeType = none ∧
    stagingResult cleanUser usernameReq failEnv = .ok stagedUsernameBatch ∧
    failEnv.sendOk = false ∧
    (updateUserProfile cleanUser usernameReq failEnv).2.status = 500 ∧
    (updateUserProfile
      (updateUserProfile cleanUser usernameReq failEnv).1
      usernameReq okEnv).2 ≠ pendingExistsResp := by
  refine ⟨rfl, rfl, rfl, ?_, ?_⟩
  · exact (updateUserProfile_rollback_on_send_failure cleanUser usernameReq
      failEnv okEnv stagedUsernameBatch rfl rfl rfl).1
  · exact (updateUserProfile_rollback_on_send_failure cleanUser usernameReq
      failEnv okEnv stagedUsernameBatch rfl rfl rfl).2.2.2.2.2.2.2.2

/-- Concrete check of C4: staging a single username change yields
`changeType = some "username"` on the stored record. -/
theorem updateUserProfile_changeType_classification_witness :
    cleanUser.pendingChanges.changeType = none ∧
    stagingResult cleanUser usernameReq okEnv = .ok stagedUsernameBatch ∧
    okEnv.sendOk = true ∧
    (updateUserProfile cleanUser usernameReq okEnv).1.pendingChanges =
      stagedUsernameBatch ∧
    stagedUsernameBatch.changeType = some "username" := by
  refine ⟨rfl, rfl, rfl, ?_, rfl⟩
  exact (updateUserProfile_changeType_classification cleanUser usernameReq
    okEnv stagedUsernameBatch rfl rfl rfl).1

/-- A user holding a reset token "r1" valid until 1000. -/
def resetUser : User :=
  { cleanUser with id := 3, passwordResetToken := some "r1",
                   passwordResetExpires := some 1000 }

/-- Concrete check of C9 on `resetUser`. -/
theorem resetPassword_direct_and_frame_witness :
    6 ≤ "secret99".length ∧
    [resetUser].find? (resetTokenMatches "r1" 10) = some resetUser ∧
    (resetPassword [resetUser] "r1" (some "secret99") 10).1 =
      updateUser [resetUser] resetUser.id (applyReset resetUser "secret99") ∧
    (applyReset resetUser "secret99").pendingChanges =
      resetUser.pendingChanges := by
  refine ⟨by decide, by decide, ?_, ?_⟩
  · exact (resetPassword_direct_and_frame [resetUser] "r1" "secret99" 10
      resetUser emptyPending none none (by decide) (by decide)).1
  · exact (resetPassword_direct_and_frame [resetUser] "r1" "secret99" 10
      resetUser emptyPending none none (by decide) (by decide)).2.2.2.2.2.1

/-! ### C7: anti-enumeration in forgotPassword -/

/-- A token environment whose mail transport fails. -/
def failTokenEnv : TokenEnv := { freshToken := "r9", now := 0, sendOk := false }

/-- A token environment whose mail transport succeeds. -/
def okTokenEnv : TokenEnv := { freshToken := "r2", now := 0, sendOk := true }

/-- C7 counterexample: with a failing mail transport, the response for
the existing email differs from the response for a non-existent one,
so the bodies are not byte-identical for every input email. -/
theorem forgotPassword_not_uniform_on_send_failure :
    (forgotPassword [cleanUser] (some "a@x.com") failTokenEnv).2 ≠
      (forgotPassword [cleanUser] (some "nobody@x.com") failTokenEnv).2 := by
  decide

/-- C7 amended: whenever the notification send succeeds,
`forgotPassword` answers with the one shared generic response whether
or not the email belongs to a user. -/
theorem forgotPassword_uniform_when_send_succeeds
    (db : List User) (e : String) (env : TokenEnv)
    (hs : env.sendOk = true) :
    (forgotPassword db (some e) env).2 = genericResetResp := by
  unfold forgotPassword
  cases h : db.find? (fun u => u.email = e) <;> simp [h, hs]

/-- Concrete check of the amended C7 for an existing email. -/
theorem forgotPassword_uniform_when_send_succeeds_witness :
    okTokenEnv.sendOk = true ∧
    (forgotPassword [cleanUser] (some "a@x.com") okTokenEnv).2 =
      genericResetResp :=
  ⟨rfl, forgotPassword_uniform_when_send_succeeds [cleanUser] "a@x.com"
    okTokenEnv rfl⟩

/-! ### C8: one active token per kind, not one overall -/

/-- The store after `cleanUser` stages a username change (verification
token "t1", 24h) and then requests a password reset (reset token "t2",
1h). -/
def twoTokenDb : List User :=
  (forgotPassword [(updateUserProfile cleanUser usernameReq okEnv).1]
    (some "a@x.com") { freshToken := "t2", now := 2000, sendOk := true }).1

/-- C8 counterexample: after staging a profile change and then a
password-reset request, the single stored user is matched both by the
verification-token query for "t1" and by the reset-token query for
"t2" at the same instant -- two simultaneously valid tokens. -/
theorem two_valid_tokens_coexist :
    twoTokenDb.map (fun v =>
      tokenMatches "t1" 5000 v && resetTokenMatches "t2" 5000 v) = [true] := by
  decide

/-- C8 amended: each issuing operation overwrites only the token field
of its own kind -- `updateUserProfile` and `resendVerificationEmail`
replace `emailVerificationToken` with the fresh token and leave
`passwordResetToken` alone, while `forgotPassword` replaces
`passwordResetToken` and leaves `emailVerificationToken` alone -- so a
prior token of the same kind is always invalidated, but one
verification token and one reset token can be active simultaneously. -/
theorem token_issuance_overwrites_only_its_kind
    (u u2 : User) (req : UpdateReq) (env : UpdateEnv) (pc : PendingChanges)
    (db : List User) (e : String) (tenv : TokenEnv) (w v : User)
    (h0 : u.pendingChanges.changeType = none)
    (hs : stagingResult u req env = .ok pc)
    (henv : env.sendOk = true)
    (hu2 : u2.isEmailVerified = false)
    (hfind : db.find? (fun x => x.email = e) = some w)
    (hsend : tenv.sendOk = true)
    (hv : v ∈ (forgotPassword db (some e) tenv).1)
    (hid : v.id = w.id) :
    (updateUserProfile u req env).1.emailVerificationToken =
      some env.freshToken ∧
    (updateUserProfile u req env).1.passwordResetToken =
      u.passwordResetToken ∧
    (resendVerificationEmail u2 tenv).1.emailVerificationToken =
      some tenv.freshToken ∧
    (resendVerificationEmail u2 tenv).1.passwordResetToken =
      u2.passwordResetToken ∧
    v.passwordResetToken = some tenv.freshToken ∧
    v.emailVerificationToken = w.emailVerificationToken := by
  have hres : (forgotPassword db (some e) tenv).1 =
      updateUser db w.id
        { w with passwordResetToken := some tenv.freshToken,
                 passwordResetExpires := some (tenv.now + 60 * 60 * 1000) } := by
    simp [forgotPassword, hfind, hsend]
  have hveq : v =
      { w with passwordResetToken := some tenv.freshToken,
               passwordResetExpires := some (tenv.now + 60 * 60 * 1000) } := by
    rw [hres, updateUser] at hv
    rcases List.mem_map.mp hv with ⟨x, hx, hxeq⟩
    by_cases hxid : x.id = w.id
    · rw [if_pos hxid] at hxeq
      exact hxeq.symm
    · rw [if_neg hxid] at hxeq
      rw [← hxeq] at hid
      exact absurd hid hxid
  refine ⟨?_, ?_, ?_, ?_, ?_, ?_⟩
  · simp [updateUserProfile, h0, hs, henv]
  · simp [updateUserProfile, h0, hs, henv]
  · simp [resendVerificationEmail, hu2, hsend]
  · simp [resendVerificationEmail, hu2, hsend]
  · rw [hveq]
  · rw [hveq]

/-- Concrete check of the amended C8. -/
theorem token_issuance_overwrites_only_its_kind_witness :
    ({ cleanUser with passwordResetToken := some "r2",
                      passwordResetExpires := some 3600000 } : User) ∈
      (forgotPassword [cleanUser] (some "a@x.com") okTokenEnv).1 ∧
    (updateUserProfile cleanUser usernameReq okEnv).1.emailVerificationToken =
      some okEnv.freshToken ∧
    ({ cleanUser with passwordResetToken := some "r2",
                      passwordResetExpires := some 3600000 } : User).emailVerificationToken =
      cleanUser.emailVerificationToken := by
  refine ⟨by decide, ?_, ?_⟩
  · exact (token_issuance_overwrites_only_its_kind cleanUser pendingUser
      usernameReq okEnv stagedUsernameBatch [cleanUser] "a@x.com" okTokenEnv
      cleanUser
      { cleanUser with passwordResetToken := some "r2",
                       passwordResetExpires := some 3600000 }
      rfl rfl rfl rfl (by decide) rfl (by decide) rfl).1
  · exact (token_issuance_overwrites_only_its_kind cleanUser pendingUser
      usernameReq okEnv stagedUsernameBatch [cleanUser] "a@x.com" okTokenEnv
      cleanUser
      { cleanUser with passwordResetToken := some "r2",
                       passwordResetExpires := some 3600000 }
      rfl rfl rfl rfl (by decide) rfl (by decide) rfl).2.2.2.2.2

end CineConnect
